import Mathlib

/-!
Shallow embedding of the ecosystem-api service (src/main.py) for formal
verification of its specification.

The service is a stateless HTTP proxy: each handler validates input,
performs upstream HTTP calls, reshapes vendor JSON, and returns the
result.  We embed the two aggregation handlers (`get_train_routes` and
`get_car_routes`) and the pure helpers they are built from.

Modelling conventions:
  * Upstream HTTP calls are modelled as oracle functions passed to the
    handler; a call is `Except.ok payload` on success and `Except.error`
    on network failure / non-success HTTP status (Python
    `requests.RequestException` on `raise_for_status`).
  * JSON fields that may be absent (Python `dict.get` returning `None`)
    are `Option` fields.  Python truthiness of `None` and `""` is
    modelled explicitly where the code relies on it (`or` chains,
    `if code` filters).
  * Machine numbers are embedded as `Int` (JSON integer fields) and
    exact rationals `Rat` (Python float arithmetic).  Python float
    division by zero raises; the embedding returns `Except.error` there.
  * Python `f"{x:.2f}"` formatting is embedded as exact rational
    rounding to two decimals (round half up; the binary double rounding
    agrees on every value at which the claims are evaluated).
  * Python `\w` word characters are modelled for ASCII text
    (alphanumeric or underscore), matching every input the claims
    mention.
-/

namespace EcosystemApi

/-! ### Upstream (vendor JSON) payload shapes -/

/-- Product object inside a leg of an NS trips payload; all fields may be
absent. -/
structure UProduct where
  displayName : Option String
  longCategoryName : Option String
  number : Option String
deriving DecidableEq

/-- Origin object inside a leg of an NS trips payload. -/
structure UOrigin where
  plannedDateTime : Option String
  actualDateTime : Option String
  plannedTrack : Option String
deriving DecidableEq

/-- One leg of an upstream trip. -/
structure ULeg where
  product : Option UProduct
  direction : Option String
  origin : Option UOrigin
deriving DecidableEq

/-- One upstream trip of an NS trips payload. -/
structure UTrip where
  legs : Option (List ULeg)
  plannedDurationInMinutes : Option Int
  actualDurationInMinutes : Option Int
  transfers : Option Int
  status : Option String
  crowdForecast : Option String
  punctuality : Option Rat
deriving DecidableEq

/-- Body of a successful NS trips response (`trips_data` in the code). -/
structure UTripsData where
  trips : Option (List UTrip)
deriving DecidableEq

/-- One disruption record of an NS disruptions payload.  `impactValue`
models `disruption.get("impact", {}).get("value", 1)`, i.e. the optional
`value` field of the optional `impact` object. -/
structure UDisruption where
  id : Option String
  title : Option String
  isActive : Option Bool
  impactValue : Option Int
deriving DecidableEq

/-- `duration_in_traffic` object of a distance-matrix element. -/
structure UDurInTraffic where
  text : Option String
  value : Option Int
deriving DecidableEq

/-- The single element `rows[0]["elements"][0]` of a distance-matrix
response. -/
structure DMElement where
  distanceText : String
  durationText : String
  durationValue : Int
  durationInTraffic : Option UDurInTraffic
deriving DecidableEq

/-- A distance-matrix response body: overall status plus its (single)
element. -/
structure DMData where
  status : String
  element : DMElement
deriving DecidableEq

/-- One step of the first leg of the first route of a directions
response. -/
structure DirStep where
  html_instructions : String
deriving DecidableEq

/-- A directions response body: overall status plus the steps of
`routes[0]["legs"][0]`. -/
structure DirData where
  status : String
  steps : List DirStep
deriving DecidableEq

/-! ### Request / response schema (the pydantic models) -/

/-- Rail `Route` request item. -/
structure Route where
  fromStation : String
  toStation : String
  fromStationCode : Option String
  toStationCode : Option String
deriving DecidableEq

/-- Response `Product` model. -/
structure Product where
  longCategoryName : String
  number : String
deriving DecidableEq

/-- Response `Leg` model. -/
structure Leg where
  name : String
  direction : String
  plannedDepartureTime : String
  plannedDepartureTrack : Option String
  product : Option Product
deriving DecidableEq

/-- Response `Trip` model. -/
structure Trip where
  idx : Nat
  plannedDurationInMinutes : Int
  actualDurationInMinutes : Option Int
  transfers : Int
  status : String
  legs : List Leg
  crowdForecast : Option String
  punctuality : Option Rat
deriving DecidableEq

/-- Response `Disruption` model; `impactValue` models the single `value`
entry of the `impact` mapping. -/
structure Disruption where
  id : String
  title : String
  isActive : Bool
  impactValue : Int
deriving DecidableEq

/-- Response `RouteResponse` model. -/
structure RouteResponse where
  routeKey : String
  trips : List Trip
  disruptions : List Disruption
deriving DecidableEq

/-- Rail `RouteRequest` body. -/
structure RouteRequest where
  routes : List Route
  max_journeys : Int := 5
  is_reversed : Bool := false
deriving DecidableEq

/-- Car `CarRoute` request item. -/
structure CarRoute where
  id : Int
  origin : String
  destination : String
  originName : String
  destinationName : String
  name : String
deriving DecidableEq

/-- Car `CarRouteRequest` body. -/
structure CarRouteRequest where
  routes : List CarRoute
  is_reversed : Bool := false
deriving DecidableEq

/-- Response `CarTripResponse` model. -/
structure CarTripResponse where
  id : Int
  from_location : String
  «to» : String
  distance : String
  duration : String
  durationInTraffic : String
  traffic : String
  route : String
  fuelCost : String
  status : String
deriving DecidableEq

/-! ### Python-semantics helpers -/

/-- Python `a or b` for an optional string `a` with fallback `b`:
`None` and the empty string are falsy. -/
def pyOrStr (a : Option String) (b : String) : String :=
  match a with
  | none => b
  | some s => if s = "" then b else s

/-- Python list slice `l[:n]` for an arbitrary integer bound `n`
(negative bounds count from the end, clamped at zero). -/
def pySlice (n : Int) (l : List α) : List α :=
  if 0 ≤ n then l.take n.toNat else l.take (l.length - (-n).toNat)

/-! ### Rail transformation (`get_train_routes` body) -/

/-- Effective origin station name: swapped when `is_reversed`. -/
def effFromStation (isRev : Bool) (r : Route) : String :=
  if isRev then r.toStation else r.fromStation

/-- Effective destination station name: swapped when `is_reversed`. -/
def effToStation (isRev : Bool) (r : Route) : String :=
  if isRev then r.fromStation else r.toStation

/-- Effective origin station code: swapped when `is_reversed`. -/
def effFromStationCode (isRev : Bool) (r : Route) : Option String :=
  if isRev then r.toStationCode else r.fromStationCode

/-- Effective destination station code: swapped when `is_reversed`. -/
def effToStationCode (isRev : Bool) (r : Route) : Option String :=
  if isRev then r.fromStationCode else r.toStationCode

/-- `route_key = f"{actual_from_station}-{actual_to_station}"`. -/
def routeKeyOf (isRev : Bool) (r : Route) : String :=
  effFromStation isRev r ++ "-" ++ effToStation isRev r

/-- The (fromStation, toStation) pair of the trips query URL. -/
def tripQuery (isRev : Bool) (r : Route) : String × String :=
  (effFromStation isRev r, effToStation isRev r)

/-- `[code for code in [actual_from_station_code, actual_to_station_code]
if code]`: keeps the codes that are present and non-empty (Python
truthiness). -/
def stationCodesOf (isRev : Bool) (r : Route) : List String :=
  [effFromStationCode isRev r, effToStationCode isRev r].filterMap
    (fun o => match o with
      | none => none
      | some s => if s = "" then none else some s)

/-- Transformation of one upstream leg into a response `Leg`
(the `legs.append(Leg(...))` expression). -/
def transformLeg (leg : ULeg) : Leg :=
  { name := pyOrStr (leg.product.bind (·.displayName))
      (pyOrStr (leg.product.bind (·.longCategoryName)) "Train")
    direction := leg.direction.getD ""
    plannedDepartureTime := pyOrStr (leg.origin.bind (·.plannedDateTime))
      (pyOrStr (leg.origin.bind (·.actualDateTime)) "")
    plannedDepartureTrack := leg.origin.bind (·.plannedTrack)
    product := leg.product.map (fun p =>
      { longCategoryName := pyOrStr p.longCategoryName "Train"
        number := pyOrStr p.number "" }) }

/-- Transformation of one upstream trip at position `idx` of the capped
list (the `Trip(...)` constructor call). -/
def transformTrip (idx : Nat) (t : UTrip) : Trip :=
  { idx := idx
    plannedDurationInMinutes := t.plannedDurationInMinutes.getD 0
    actualDurationInMinutes := t.actualDurationInMinutes
    transfers := t.transfers.getD 0
    status := t.status.getD "NORMAL"
    legs := (t.legs.getD []).map transformLeg
    crowdForecast := t.crowdForecast
    punctuality := t.punctuality }

/-- `for idx, trip in enumerate(...)`: map with a running zero-based
index. -/
def mapIdxTrips (i : Nat) : List UTrip → List Trip
  | [] => []
  | t :: ts => transformTrip i t :: mapIdxTrips (i + 1) ts

/-- `trips_data["trips"][:request.max_journeys]` enumerated and
transformed (`transformed_trips` in the code; an absent or empty `trips`
field yields the empty list either way). -/
def transformTrips (maxJourneys : Int) (data : UTripsData) : List Trip :=
  mapIdxTrips 0 (pySlice maxJourneys (data.trips.getD []))

/-- Transformation of one upstream disruption (the `Disruption(...)`
constructor call; only reached when `isActive` is truthy). -/
def transformDisruption (d : UDisruption) : Disruption :=
  { id := d.id.getD ""
    title := d.title.getD "Unknown disruption"
    isActive := true
    impactValue := d.impactValue.getD 1 }

/-- The disruption-collection loop over the effective station codes.
The oracle returns `Except.error ()` when the call fails or returns a
non-ok response; that station is skipped (`try ... except: continue`).
Active disruptions of each succeeding station are appended in order. -/
def collectDisruptions (dO : String → Except Unit (List UDisruption)) :
    List String → List Disruption
  | [] => []
  | c :: cs =>
    (match dO c with
      | .error _ => []
      | .ok ds => (ds.filter (fun d => d.isActive.getD false)).map transformDisruption)
      ++ collectDisruptions dO cs

/-- Body of the per-route loop of `get_train_routes`: the trip-search
call aborts the route (and hence the batch) on failure; the disruption
calls never do. -/
def processRoute (tO : String × String → Except String UTripsData)
    (dO : String → Except Unit (List UDisruption))
    (maxJourneys : Int) (isRev : Bool) (r : Route) :
    Except String RouteResponse :=
  match tO (tripQuery isRev r) with
  | .error e => .error e
  | .ok data => .ok
      { routeKey := routeKeyOf isRev r
        trips := transformTrips maxJourneys data
        disruptions := collectDisruptions dO (stationCodesOf isRev r) }

/-- The sequential loop of `get_train_routes` over the request's routes:
the first failing trip-search call aborts the whole batch. -/
def railRoutes (tO : String × String → Except String UTripsData)
    (dO : String → Except Unit (List UDisruption))
    (maxJourneys : Int) (isRev : Bool) :
    List Route → Except String (List RouteResponse)
  | [] => .ok []
  | r :: rs =>
    match processRoute tO dO maxJourneys isRev r with
    | .error e => .error e
    | .ok x =>
      match railRoutes tO dO maxJourneys isRev rs with
      | .error e => .error e
      | .ok xs => .ok (x :: xs)

/-- `get_train_routes` handler. -/
def getTrainRoutes (tO : String × String → Except String UTripsData)
    (dO : String → Except Unit (List UDisruption))
    (req : RouteRequest) : Except String (List RouteResponse) :=
  railRoutes tO dO req.max_journeys req.is_reversed req.routes

/-! ### Road-name extraction (`re.search(r"\b[A-Z]\d+\b", ...)`) -/

/-- Python regex word character (`\w`), for ASCII text: alphanumeric or
underscore. -/
def isWordChar (c : Char) : Bool :=
  c.isAlphanum || c = '_'

/-- `\b` holds before a word character iff the preceding character (if
any) is not a word character. -/
def boundaryBefore (prev : Option Char) : Bool :=
  match prev with
  | none => true
  | some p => ! isWordChar p

/-- `\b` holds after a word character iff the following character (if
any) is not a word character. -/
def boundaryAfter (rest : List Char) : Bool :=
  match rest with
  | [] => true
  | c :: _ => ! isWordChar c

/-- Split off the leading maximal run of digits (the greedy `\d+`). -/
def takeDigits : List Char → List Char × List Char
  | [] => ([], [])
  | c :: cs =>
    if c.isDigit then
      let p := takeDigits cs
      (c :: p.1, p.2)
    else ([], c :: cs)

/-- Leftmost match of `\b[A-Z]\d+\b` in a character list, scanning one
start position at a time as `re.search` does; `prev` is the character
before the current position. -/
def searchRoad (prev : Option Char) : List Char → Option (List Char)
  | [] => none
  | c :: cs =>
    if boundaryBefore prev && c.isUpper then
      let p := takeDigits cs
      if p.1 ≠ [] ∧ boundaryAfter p.2 then some (c :: p.1)
      else searchRoad (some c) cs
    else searchRoad (some c) cs

/-- `re.search(r"\b[A-Z]\d+\b", instructions)`: the matched text of the
first match, if any. -/
def pyFirstMatch (s : String) : Option String :=
  (searchRoad none s.data).map (fun cs => ⟨cs⟩)

/-- The road-name collection loop over the ordered steps: append each
step's first match and stop once three names are collected. -/
def roadNamesLoop (acc : List String) : List String → List String
  | [] => acc
  | s :: rest =>
    match pyFirstMatch s with
    | none => roadNamesLoop acc rest
    | some m =>
      if acc.length + 1 ≥ 3 then acc ++ [m]
      else roadNamesLoop (acc ++ [m]) rest

/-- `" → ".join(road_names)` for a non-empty list. -/
def joinArrow : List String → String
  | [] => ""
  | [s] => s
  | s :: rest => s ++ " → " ++ joinArrow rest

/-- `route_description`: joined road names, or `"Local roads"` when no
step produced a match. -/
def carRouteDescription (instrs : List String) : String :=
  let names := roadNamesLoop [] instrs
  if names = [] then "Local roads" else joinArrow names

/-! ### Traffic classification -/

/-- `if ratio > 1.4 ... elif ratio > 1.2 ... else ...`. -/
def classifyTraffic (r : Rat) : String :=
  if r > (14 : Rat) / 10 then "Heavy"
  else if r > (12 : Rat) / 10 then "Moderate"
  else "Light"

/-- `duration_in_traffic_value / duration_value` with the fallback
`element.get("duration_in_traffic", {}).get("value", duration_value)`;
Python raises `ZeroDivisionError` when `duration_value` is zero. -/
def computeRatio (el : DMElement) : Except String Rat :=
  if el.durationValue = 0 then .error "ZeroDivisionError: division by zero"
  else .ok (((el.durationInTraffic.bind (·.value)).getD el.durationValue : Int) /
    (el.durationValue : Rat))

/-! ### Fuel cost -/

/-- `re.sub(r'[^\d.]', '', distance)`: keep only digits and decimal
points. -/
def stripNonNumeric (s : String) : String :=
  ⟨s.data.filter (fun c => c.isDigit || c = '.')⟩

/-- Numeric value of a digit string (empty string contributes 0). -/
def digitsNat : List Char → Nat
  | [] => 0
  | c :: cs => digitsNatAux (c.toNat - '0'.toNat) cs
where
  digitsNatAux (acc : Nat) : List Char → Nat
    | [] => acc
    | c :: cs => digitsNatAux (acc * 10 + (c.toNat - '0'.toNat)) cs

/-- Split a character list at the dots. -/
def splitDots : List Char → List (List Char)
  | [] => [[]]
  | c :: cs =>
    let parts := splitDots cs
    if c = '.' then [] :: parts
    else match parts with
      | [] => [[c]]
      | p :: ps => (c :: p) :: ps

/-- Python `float(s)` on a string of digits and dots: at most one dot
and at least one digit, else a `ValueError` (`none`).  Strings holding
any other character are outside the domain this embedding is applied to
(the argument is always the output of `stripNonNumeric`) and map to
`none` as well. -/
def pyFloatOfString (s : String) : Option Rat :=
  if s.data.all (fun c => c.isDigit || c = '.') then
    match splitDots s.data with
    | [a] => if a = [] then none else some (digitsNat a)
    | [a, b] =>
      if a = [] ∧ b = [] then none
      else some ((digitsNat a : Rat) + (digitsNat b : Rat) / (10 : Rat) ^ b.length)
    | _ => none
  else none

/-- Two-decimal zero padding of `n < 100`. -/
def pad2 (n : Nat) : String :=
  if n < 10 then "0" ++ toString n else toString n

/-- Python `f"{x:.2f}"` on an exact rational: round `x * 100` to the
nearest integer (half up) and print with two decimals.  The claims only
evaluate it at non-tie, non-negative values, where this agrees with the
binary-double formatting. -/
def fmt2 (q : Rat) : String :=
  let n := (q * 100 + 1 / 2).floor
  toString (n / 100) ++ "." ++ pad2 (n % 100).toNat

/-- `fuel_cost = f"€{((distance_value / 100) * 12):.2f}"` computed from
the distance text; `none` models the `ValueError` of `float(...)` on an
unparseable stripped distance. -/
def fuelCostStr (distance : String) : Option String :=
  (pyFloatOfString (stripNonNumeric distance)).map
    (fun d => "€" ++ fmt2 (d / 100 * 12))

/-! ### Car aggregation (`get_car_routes` body) -/

/-- Effective origin (geocodable string): swapped when `is_reversed`. -/
def effOrigin (isRev : Bool) (r : CarRoute) : String :=
  if isRev then r.destination else r.origin

/-- Effective destination: swapped when `is_reversed`. -/
def effDestination (isRev : Bool) (r : CarRoute) : String :=
  if isRev then r.origin else r.destination

/-- Effective origin display name: swapped when `is_reversed`. -/
def effOriginName (isRev : Bool) (r : CarRoute) : String :=
  if isRev then r.destinationName else r.originName

/-- Effective destination display name: swapped when `is_reversed`. -/
def effDestinationName (isRev : Bool) (r : CarRoute) : String :=
  if isRev then r.originName else r.destinationName

/-- The (origin, destination) pair used by both car upstream calls. -/
def carQuery (isRev : Bool) (r : CarRoute) : String × String :=
  (effOrigin isRev r, effDestination isRev r)

/-- Body of the per-route loop of `get_car_routes`.  Every failure path
(transport error, non-OK payload status, division by zero, unparseable
distance) aborts with an error, mirroring the unhandled exceptions and
explicit `HTTPException`s of the code. -/
def processCarRoute (dmO : String × String → Except String DMData)
    (dirO : String × String → Except String DirData)
    (isRev : Bool) (r : CarRoute) : Except String CarTripResponse :=
  match dmO (carQuery isRev r) with
  | .error e => .error e
  | .ok dm =>
    if dm.status ≠ "OK" then .error ("Distance Matrix API error: " ++ dm.status)
    else
      match dirO (carQuery isRev r) with
      | .error e => .error e
      | .ok dir =>
        if dir.status ≠ "OK" then .error ("Directions API error: " ++ dir.status)
        else
          match computeRatio dm.element with
          | .error e => .error e
          | .ok q =>
            match fuelCostStr dm.element.distanceText with
            | none => .error "ValueError: could not convert string to float"
            | some fuel => .ok
                { id := r.id
                  from_location := effOriginName isRev r
                  «to» := effDestinationName isRev r
                  distance := dm.element.distanceText
                  duration := dm.element.durationText
                  durationInTraffic :=
                    (dm.element.durationInTraffic.bind (·.text)).getD
                      dm.element.durationText
                  traffic := classifyTraffic q
                  route := carRouteDescription (dir.steps.map (·.html_instructions))
                  fuelCost := fuel
                  status := "NORMAL" }

/-- The sequential loop of `get_car_routes` over the request's routes:
the first failing route aborts the whole batch. -/
def carRoutes (dmO : String × String → Except String DMData)
    (dirO : String × String → Except String DirData)
    (isRev : Bool) : List CarRoute → Except String (List CarTripResponse)
  | [] => .ok []
  | r :: rs =>
    match processCarRoute dmO dirO isRev r with
    | .error e => .error e
    | .ok x =>
      match carRoutes dmO dirO isRev rs with
      | .error e => .error e
      | .ok xs => .ok (x :: xs)

/-- `get_car_routes` handler. -/
def getCarRoutes (dmO : String × String → Except String DMData)
    (dirO : String × String → Except String DirData)
    (req : CarRouteRequest) : Except String (List CarTripResponse) :=
  carRoutes dmO dirO req.is_reversed req.routes

/-! ### Specification-side definitions (for refinement comparison) -/

/-- Modelled from the spec's words for the road-name extraction claim:
the first substring consisting of one uppercase letter followed by one
or more digits, with no word-boundary requirement. -/
def naiveFirstRoad : List Char → Option (List Char)
  | [] => none
  | c :: cs =>
    if c.isUpper then
      let p := takeDigits cs
      if p.1 ≠ [] then some (c :: p.1) else naiveFirstRoad cs
    else naiveFirstRoad cs

/-- Modelled from the spec's words: per-step first naive match,
up to 3 matches in step order joined with " → ", else "Local roads". -/
def specNaiveDescription (instrs : List String) : String :=
  let ms := instrs.filterMap (fun s => (naiveFirstRoad s.data).map (fun cs => ⟨cs⟩))
  if ms = [] then "Local roads" else joinArrow (ms.take 3)

/-- Spec-shaped description using the code's boundary-respecting
matcher: per-step first match, up to 3 in step order joined with " → ",
else "Local roads".  Compared against the code's collection loop. -/
def specBoundaryDescription (instrs : List String) : String :=
  let ms := instrs.filterMap pyFirstMatch
  if ms = [] then "Local roads" else joinArrow (ms.take 3)

/-! ### Helper instances and lemmas -/

instance {ε α : Type} [DecidableEq ε] [DecidableEq α] : DecidableEq (Except ε α) := fun a b =>
  match a, b with
  | .error e, .error f =>
    if h : e = f then .isTrue (by rw [h]) else .isFalse (by intro c; cases c; exact h rfl)
  | .error _, .ok _ => .isFalse (by intro c; cases c)
  | .ok _, .error _ => .isFalse (by intro c; cases c)
  | .ok x, .ok y =>
    if h : x = y then .isTrue (by rw [h]) else .isFalse (by intro c; cases c; exact h rfl)

attribute [local semireducible] Rat.mul Rat.add Rat.inv Rat.ofScientific

lemma mapIdxTrips_length (i : Nat) (l : List UTrip) :
    (mapIdxTrips i l).length = l.length := by
  induction l generalizing i with
  | nil => rfl
  | cons t ts ih => simp [mapIdxTrips, ih]

lemma mapIdxTrips_getElem? (l : List UTrip) (i k : Nat) :
    (mapIdxTrips i l)[k]? = (l[k]?).map (fun t => transformTrip (i + k) t) := by
  induction l generalizing i k with
  | nil => simp [mapIdxTrips]
  | cons t ts ih =>
    cases k with
    | zero => simp [mapIdxTrips]
    | succ k =>
      have harith : i + 1 + k = i + (k + 1) := by omega
      simp [mapIdxTrips, ih, harith]

lemma take_getElem?_of_lt (l : List α) (m k : Nat)
    (hk : k < (l.take m).length) : (l.take m)[k]? = l[k]? := by
  have hkm : k < m := lt_of_lt_of_le hk (by rw [List.length_take]; exact Nat.min_le_left _ _)
  rw [List.getElem?_take, if_pos hkm]

lemma pySlice_getElem? (n : Int) (l : List α) (k : Nat)
    (hk : k < (pySlice n l).length) : (pySlice n l)[k]? = l[k]? := by
  unfold pySlice at *
  by_cases h0 : 0 ≤ n
  · rw [if_pos h0] at hk ⊢; exact take_getElem?_of_lt l _ k hk
  · rw [if_neg h0] at hk ⊢; exact take_getElem?_of_lt l _ k hk

lemma pySlice_length_le (n : Int) (h : 0 ≤ n) (l : List α) :
    ((pySlice n l).length : Int) ≤ n := by
  unfold pySlice
  rw [if_pos h]
  have h1 : (l.take n.toNat).length ≤ n.toNat := by
    rw [List.length_take]; exact Nat.min_le_left _ _
  calc ((l.take n.toNat).length : Int) ≤ (n.toNat : Int) := by exact_mod_cast h1
    _ = n := Int.toNat_of_nonneg h

lemma pyOrStr_of_some {s : String} (hs : s ≠ "") (b : String) :
    pyOrStr (some s) b = s := by
  simp [pyOrStr, hs]

/-- Python falsiness of an optional string: absent or empty. -/
def falsyStr (o : Option String) : Prop := o = none ∨ o = some ""

lemma pyOrStr_of_falsy {o : Option String} (h : falsyStr o) (b : String) :
    pyOrStr o b = b := by
  rcases h with h | h <;> simp [pyOrStr, h]

/-! ### C2 -/

/-- Concrete upstream trip with every optional field absent. -/
def utripEmpty : UTrip := ⟨none, none, none, none, none, none, none⟩

/-- Concrete upstream trips payload holding two trips. -/
def tripsDataTwo : UTripsData := ⟨some [utripEmpty, utripEmpty]⟩

/-- C2 counterexample: with the schema-valid cap `max_journeys = -1` and
two upstream trips, Python's slice `trips[:-1]` keeps one trip, so the
returned trips list is longer than the cap, refuting
`len(trips) <= max_journeys` as stated. -/
theorem c2_trips_cap_counterexample :
    ¬ (((transformTrips (-1) tripsDataTwo).length : Int) ≤ (-1 : Int)) := by
  decide

/-- C2 (amended): for a non-negative cap `max_journeys`, every rail
route's returned trips list has length at most `max_journeys`, each trip
at position `i` has `idx = i`, and the trip at position `i` is the
transform of the upstream trip at position `i` (upstream order
preserved). -/
theorem c2_trips_capped_and_indexed (maxJ : Int) (data : UTripsData)
    (h : 0 ≤ maxJ) :
    (((transformTrips maxJ data).length : Int) ≤ maxJ)
    ∧ (∀ (k : Nat) (t : Trip), (transformTrips maxJ data)[k]? = some t → t.idx = k)
    ∧ (∀ k, k < (transformTrips maxJ data).length →
        (transformTrips maxJ data)[k]? =
          ((data.trips.getD [])[k]?).map (transformTrip k)) := by
  refine ⟨?_, ?_, ?_⟩
  · unfold transformTrips
    rw [mapIdxTrips_length]
    exact pySlice_length_le maxJ h _
  · intro k t ht
    unfold transformTrips at ht
    rw [mapIdxTrips_getElem?] at ht
    rcases hu : (pySlice maxJ (data.trips.getD []))[k]? with _ | u
    · rw [hu] at ht; simp at ht
    · rw [hu] at ht
      simp only [Option.map_some'] at ht
      cases ht
      simp [transformTrip]
  · intro k hk
    unfold transformTrips at hk ⊢
    rw [mapIdxTrips_getElem?]
    rw [mapIdxTrips_length] at hk
    rw [pySlice_getElem? maxJ _ k hk]
    simp

/-- C2 witness: the amended theorem applied at cap 5 and a concrete
two-trip payload. -/
theorem c2_witness :
    ((transformTrips 5 tripsDataTwo).length : Int) ≤ 5 :=
  (c2_trips_capped_and_indexed 5 tripsDataTwo (by decide)).1

/-! ### C3 -/

/-- C3: `is_reversed = true` swaps the effective origin and destination
and their station codes; the route key for `{fromStation: A, toStation:
B}` reversed is `B ++ "-" ++ A`, which equals the route key of the
swapped route unreversed. -/
theorem c3_reversed_swaps (A B : String) (fc tc : Option String) :
    routeKeyOf true ⟨A, B, fc, tc⟩ = B ++ "-" ++ A
    ∧ routeKeyOf true ⟨A, B, fc, tc⟩ = routeKeyOf false ⟨B, A, tc, fc⟩
    ∧ effFromStation true ⟨A, B, fc, tc⟩ = B
    ∧ effToStation true ⟨A, B, fc, tc⟩ = A
    ∧ effFromStationCode true ⟨A, B, fc, tc⟩ = tc
    ∧ effToStationCode true ⟨A, B, fc, tc⟩ = fc := by
  exact ⟨rfl, rfl, rfl, rfl, rfl, rfl⟩

/-! ### C4 -/

/-- C4: a transformed leg's name is the first non-empty value among the
product's display name, the product's long category name, and the
literal "Train"; its planned departure time is the first non-empty
value among the origin's planned datetime, its actual datetime, and the
empty string. -/
theorem c4_leg_fallback_chains (leg : ULeg) :
    (∀ s, leg.product.bind (·.displayName) = some s → s ≠ "" →
      (transformLeg leg).name = s)
    ∧ (falsyStr (leg.product.bind (·.displayName)) →
        ∀ s, leg.product.bind (·.longCategoryName) = some s → s ≠ "" →
          (transformLeg leg).name = s)
    ∧ (falsyStr (leg.product.bind (·.displayName)) →
        falsyStr (leg.product.bind (·.longCategoryName)) →
          (transformLeg leg).name = "Train")
    ∧ (∀ s, leg.origin.bind (·.plannedDateTime) = some s → s ≠ "" →
        (transformLeg leg).plannedDepartureTime = s)
    ∧ (falsyStr (leg.origin.bind (·.plannedDateTime)) →
        ∀ s, leg.origin.bind (·.actualDateTime) = some s → s ≠ "" →
          (transformLeg leg).plannedDepartureTime = s)
    ∧ (falsyStr (leg.origin.bind (·.plannedDateTime)) →
        falsyStr (leg.origin.bind (·.actualDateTime)) →
          (transformLeg leg).plannedDepartureTime = "") := by
  refine ⟨?_, ?_, ?_, ?_, ?_, ?_⟩
  · intro s hs hne
    simp only [transformLeg]
    rw [hs, pyOrStr_of_some hne]
  · intro hd s hs hne
    simp only [transformLeg]
    rw [pyOrStr_of_falsy hd, hs, pyOrStr_of_some hne]
  · intro hd hl
    simp only [transformLeg]
    rw [pyOrStr_of_falsy hd, pyOrStr_of_falsy hl]
  · intro s hs hne
    simp only [transformLeg]
    rw [hs, pyOrStr_of_some hne]
  · intro hd s hs hne
    simp only [transformLeg]
    rw [pyOrStr_of_falsy hd, hs, pyOrStr_of_some hne]
  · intro hd hl
    simp only [transformLeg]
    rw [pyOrStr_of_falsy hd, pyOrStr_of_falsy hl]

/-- C4 witness: a leg with no product and no origin resolves to name
"Train" and planned departure time "". -/
theorem c4_witness :
    (transformLeg ⟨none, none, none⟩).name = "Train"
    ∧ (transformLeg ⟨none, none, none⟩).plannedDepartureTime = "" :=
  ⟨(c4_leg_fallback_chains ⟨none, none, none⟩).2.2.1 (Or.inl rfl) (Or.inl rfl),
   (c4_leg_fallback_chains ⟨none, none, none⟩).2.2.2.2.2 (Or.inl rfl) (Or.inl rfl)⟩

/-! ### C5 -/

lemma collectDisruptions_provenance (dO : String → Except Unit (List UDisruption)) :
    ∀ codes : List String, ∀ d ∈ collectDisruptions dO codes,
      ∃ c ∈ codes, ∃ ds : List UDisruption, dO c = .ok ds
        ∧ ∃ ud ∈ ds, ud.isActive = some true ∧ d = transformDisruption ud := by
  intro codes
  induction codes with
  | nil => simp [collectDisruptions]
  | cons c cs ih =>
    intro d hd
    simp only [collectDisruptions] at hd
    rcases List.mem_append.mp hd with h1 | h2
    · cases hdo : dO c with
      | error e => rw [hdo] at h1; simp at h1
      | ok ds =>
        rw [hdo] at h1
        simp only at h1
        rcases List.mem_map.mp h1 with ⟨u, hu, rfl⟩
        have hf := List.mem_filter.mp hu
        refine ⟨c, List.mem_cons_self c cs, ds, hdo, u, hf.1, ?_, rfl⟩
        cases hia : u.isActive with
        | none => rw [hia] at hf; simp [Option.getD] at hf
        | some b =>
          cases b with
          | false => rw [hia] at hf; simp [Option.getD] at hf
          | true => rfl
    · obtain ⟨c', hc', ds, hds, ud, hud, hact, hd'⟩ := ih d h2
      exact ⟨c', List.mem_cons_of_mem c hc', ds, hds, ud, hud, hact, hd'⟩

lemma collectDisruptions_mem (dO : String → Except Unit (List UDisruption))
    (codes : List String) (c : String) (ds : List UDisruption) (ud : UDisruption)
    (hc : c ∈ codes) (hds : dO c = .ok ds) (hud : ud ∈ ds)
    (hact : ud.isActive = some true) :
    transformDisruption ud ∈ collectDisruptions dO codes := by
  induction codes with
  | nil => cases hc
  | cons c0 cs ih =>
    simp only [collectDisruptions]
    rcases List.mem_cons.mp hc with rfl | hmem
    · apply List.mem_append_left
      rw [hds]
      simp only
      exact List.mem_map_of_mem _
        (List.mem_filter.mpr ⟨hud, by rw [hact]; rfl⟩)
    · exact List.mem_append_right _ (ih hmem)

/-- C5: in a successfully processed rail route, every returned
disruption is the transform of an upstream disruption whose isActive
flag is true, reported by a queried station that answered — so an
upstream disruption with isActive=false never appears in the output —
and conversely every active disruption reported by a queried, answering
station appears in the output (duplicates across the two stations
permitted). -/
theorem c5_only_active_disruptions
    (tO : String × String → Except String UTripsData)
    (dO : String → Except Unit (List UDisruption))
    (maxJ : Int) (isRev : Bool) (r : Route) (resp : RouteResponse)
    (h : processRoute tO dO maxJ isRev r = .ok resp) :
    (∀ d ∈ resp.disruptions, ∃ c ∈ stationCodesOf isRev r,
      ∃ ds : List UDisruption, dO c = .ok ds
        ∧ ∃ ud ∈ ds, ud.isActive = some true ∧ d = transformDisruption ud)
    ∧ (∀ c ∈ stationCodesOf isRev r, ∀ ds : List UDisruption, dO c = .ok ds →
        ∀ ud ∈ ds, ud.isActive = some true →
          transformDisruption ud ∈ resp.disruptions) := by
  have hdisr : resp.disruptions = collectDisruptions dO (stationCodesOf isRev r) := by
    cases htq : tO (tripQuery isRev r) with
    | error e => simp [processRoute, htq] at h
    | ok data =>
      simp only [processRoute, htq, Except.ok.injEq] at h
      rw [← h]
  constructor
  · rw [hdisr]; exact collectDisruptions_provenance dO _
  · intro c hc ds hds ud hud hact
    rw [hdisr]
    exact collectDisruptions_mem dO _ c ds ud hc hds hud hact

/-- Concrete active upstream disruption. -/
def udActive : UDisruption := ⟨some "d1", some "Works", some true, some 2⟩

/-- Disruption oracle answering every station with one active
disruption. -/
def dOw : String → Except Unit (List UDisruption) := fun _ => .ok [udActive]

/-- Trip oracle answering every query with an empty payload. -/
def tOw : String × String → Except String UTripsData := fun _ => .ok ⟨none⟩

/-- Concrete rail route with both station codes present. -/
def routeW : Route := ⟨"A", "B", some "AC", some "BC"⟩

/-- Concrete processed response for `routeW` under `tOw` and `dOw`. -/
def respW : RouteResponse :=
  ⟨"A-B", [], [transformDisruption udActive, transformDisruption udActive]⟩

/-- C5 witness: the active disruption reported by station "AC" appears
in the output of the concrete route. -/
theorem c5_witness : transformDisruption udActive ∈ respW.disruptions :=
  (c5_only_active_disruptions tOw dOw 5 false routeW respW (by decide)).2
    "AC" (by decide) [udActive] rfl udActive (by decide) rfl

/-! ### C6 -/

/-- C6: a disruption-lookup failure for the first station is swallowed —
the route still succeeds, its trips are returned, and its disruptions
come only from the succeeding station — whereas a trip-search failure
for any route in the batch makes the whole batch return an error and no
list of results. -/
theorem c6_failure_policy
    (tO : String × String → Except String UTripsData)
    (dO : String → Except Unit (List UDisruption))
    (maxJ : Int) (isRev : Bool) :
    (∀ (r : Route) (data : UTripsData) (ds2 : List UDisruption) (sc1 sc2 : String),
      stationCodesOf isRev r = [sc1, sc2] →
      dO sc1 = .error () → dO sc2 = .ok ds2 →
      tO (tripQuery isRev r) = .ok data →
      processRoute tO dO maxJ isRev r = .ok
        { routeKey := routeKeyOf isRev r
          trips := transformTrips maxJ data
          disruptions :=
            (ds2.filter (fun d => d.isActive.getD false)).map transformDisruption })
    ∧ (∀ (routes : List Route) (r : Route) (e : String),
        r ∈ routes → tO (tripQuery isRev r) = .error e →
        (railRoutes tO dO maxJ isRev routes).toOption = none) := by
  constructor
  · intro r data ds2 sc1 sc2 hcodes herr hok htrip
    simp only [processRoute, htrip, Except.ok.injEq]
    rw [hcodes]
    simp [collectDisruptions, herr, hok]
  · intro routes r e hmem herr
    induction routes with
    | nil => cases hmem
    | cons r0 rs ih =>
      rcases List.mem_cons.mp hmem with rfl | hmem'
      · simp [railRoutes, processRoute, herr, Except.toOption]
      · cases hp : processRoute tO dO maxJ isRev r0 with
        | error e0 => simp [railRoutes, hp, Except.toOption]
        | ok x =>
          have htl := ih hmem'
          cases hr : railRoutes tO dO maxJ isRev rs with
          | error e1 => simp [railRoutes, hp, hr, Except.toOption]
          | ok out => rw [hr] at htl; simp [Except.toOption] at htl

/-- Trip oracle failing every query. -/
def tOe : String × String → Except String UTripsData := fun _ => .error "boom"

/-- Disruption oracle failing for station "AC" and answering "BC" with
one active disruption. -/
def dOc6 : String → Except Unit (List UDisruption) :=
  fun c => if c = "AC" then .error () else .ok [udActive]

/-- C6 witness: for the concrete route, the failed "AC" lookup is
swallowed and the disruptions come from "BC" alone, while a failing
trip search for the one-route batch yields no result list. -/
theorem c6_witness :
    processRoute tOw dOc6 5 false routeW = .ok
      { routeKey := routeKeyOf false routeW
        trips := transformTrips 5 ⟨none⟩
        disruptions :=
          (([udActive].filter (fun d => d.isActive.getD false)).map transformDisruption) }
    ∧ (railRoutes tOe dOw 5 false [routeW]).toOption = none :=
  ⟨(c6_failure_policy tOw dOc6 5 false).1 routeW ⟨none⟩ [udActive] "AC" "BC"
      (by decide) (by decide) (by decide) rfl,
   (c6_failure_policy tOe dOw 5 false).2 [routeW] routeW "boom"
      (List.mem_singleton.mpr rfl) rfl⟩

/-! ### C7 -/

/-- C7: the traffic level is classified from the exact ratio with strict
comparisons — above 14/10 "Heavy", above 12/10 and at most 14/10
"Moderate", at most 12/10 "Light"; the boundary values 14/10 and 12/10
classify as "Moderate" and "Light"; and an absent duration-in-traffic
value falls back to the duration value, yielding ratio 1 (and hence
"Light") whenever the duration value is non-zero. -/
theorem c7_traffic_classification :
    (∀ q : Rat, ((14 : Rat) / 10 < q → classifyTraffic q = "Heavy")
      ∧ ((12 : Rat) / 10 < q → q ≤ (14 : Rat) / 10 → classifyTraffic q = "Moderate")
      ∧ (q ≤ (12 : Rat) / 10 → classifyTraffic q = "Light"))
    ∧ classifyTraffic ((14 : Rat) / 10) = "Moderate"
    ∧ classifyTraffic ((12 : Rat) / 10) = "Light"
    ∧ (∀ el : DMElement, el.durationInTraffic.bind (·.value) = none →
        el.durationValue ≠ 0 →
        computeRatio el = .ok 1 ∧ classifyTraffic 1 = "Light") := by
  refine ⟨?_, by decide, by decide, ?_⟩
  · intro q
    refine ⟨?_, ?_, ?_⟩
    · intro h
      simp [classifyTraffic, h]
    · intro h1 h2
      have hn : ¬ ((14 : Rat) / 10 < q) := not_lt.mpr h2
      simp [classifyTraffic, hn, h1]
    · intro h
      have h2 : ¬ ((12 : Rat) / 10 < q) := not_lt.mpr h
      have h1 : ¬ ((14 : Rat) / 10 < q) :=
        not_lt.mpr (le_trans h (by norm_num))
      simp [classifyTraffic, h1, h2]
  · intro el hnone hnz
    constructor
    · simp only [computeRatio, if_neg hnz, hnone, Option.getD_none]
      norm_num
      exact div_self (by exact_mod_cast hnz)
    · decide

/-- Concrete distance-matrix element with no traffic data. -/
def elPlain : DMElement := ⟨"1 km", "60 s", 60, none⟩

/-- C7 witness: classification evaluated at ratios 3/2, 13/10 and at
the fallback element. -/
theorem c7_witness :
    classifyTraffic ((3 : Rat) / 2) = "Heavy"
    ∧ classifyTraffic ((13 : Rat) / 10) = "Moderate"
    ∧ computeRatio elPlain = .ok 1 :=
  ⟨(c7_traffic_classification.1 ((3 : Rat) / 2)).1 (by norm_num),
   (c7_traffic_classification.1 ((13 : Rat) / 10)).2.1 (by norm_num) (by norm_num),
   (c7_traffic_classification.2.2.2 elPlain rfl (by decide)).1⟩

/-! ### C8 -/

/-- C8: the fuel cost is the euro-formatted value of
`(distance / 100) * 12`, where the distance is parsed from the distance
text with every character other than a digit or decimal point stripped;
distance text "42.5 km" strips to "42.5", parses to 85/2 and yields
"€5.10". -/
theorem c8_fuel_cost :
    (∀ (s : String) (d : Rat), pyFloatOfString (stripNonNumeric s) = some d →
      fuelCostStr s = some ("€" ++ fmt2 (d / 100 * 12)))
    ∧ stripNonNumeric "42.5 km" = "42.5"
    ∧ pyFloatOfString "42.5" = some ((85 : Rat) / 2)
    ∧ fuelCostStr "42.5 km" = some "€5.10" := by
  refine ⟨?_, by decide, by decide, by decide⟩
  intro s d h
  simp [fuelCostStr, h]

/-- C8 witness: the general formula applied at distance text
"42.5 km". -/
theorem c8_witness :
    fuelCostStr "42.5 km" = some ("€" ++ fmt2 ((85 : Rat) / 2 / 100 * 12)) :=
  c8_fuel_cost.1 "42.5 km" ((85 : Rat) / 2) (by decide)

/-! ### C10 -/

/-- C10: the ratio computation has no zero guard — it is well-defined
for every strictly positive duration value, but a zero duration value
reaches the division-by-zero error branch, and that error (not the
uniform upstream error) aborts the car route even when both upstream
calls succeeded with status OK. -/
theorem c10_division_by_zero_reachable :
    (∀ el : DMElement, 0 < el.durationValue → (computeRatio el).isOk = true)
    ∧ (∀ el : DMElement, el.durationValue = 0 →
        computeRatio el = .error "ZeroDivisionError: division by zero")
    ∧ (∀ (dmO : String × String → Except String DMData)
        (dirO : String × String → Except String DirData)
        (isRev : Bool) (r : CarRoute) (dm : DMData) (dir : DirData),
        dmO (carQuery isRev r) = .ok dm → dm.status = "OK" →
        dirO (carQuery isRev r) = .ok dir → dir.status = "OK" →
        dm.element.durationValue = 0 →
        processCarRoute dmO dirO isRev r =
          .error "ZeroDivisionError: division by zero") := by
  refine ⟨?_, ?_, ?_⟩
  · intro el h
    simp only [computeRatio, if_neg (by omega : ¬ el.durationValue = 0)]
    rfl
  · intro el h
    simp [computeRatio, h]
  · intro dmO dirO isRev r dm dir hdm hst hdir hst2 hz
    simp [processCarRoute, hdm, hst, hdir, hst2, computeRatio, hz]

/-- Concrete distance-matrix element with a zero duration value. -/
def elZero : DMElement := ⟨"1 km", "0 s", 0, none⟩

/-- Distance-matrix oracle returning status OK with a zero duration
value. -/
def dmOz : String × String → Except String DMData := fun _ => .ok ⟨"OK", elZero⟩

/-- Directions oracle returning status OK with no steps. -/
def dirOw : String × String → Except String DirData := fun _ => .ok ⟨"OK", []⟩

/-- Concrete car route. -/
def carW : CarRoute := ⟨7, "X", "Y", "Xn", "Yn", "r1"⟩

/-- C10 witness: a positive duration is well-defined; a zero duration
aborts the concrete car route with the division-by-zero error despite
both upstream calls succeeding. -/
theorem c10_witness :
    (computeRatio elPlain).isOk = true
    ∧ processCarRoute dmOz dirOw false carW =
        .error "ZeroDivisionError: division by zero" :=
  ⟨c10_division_by_zero_reachable.1 elPlain (by decide),
   c10_division_by_zero_reachable.2.2 dmOz dirOw false carW ⟨"OK", elZero⟩
     ⟨"OK", []⟩ rfl rfl rfl rfl rfl⟩

/-! ### C1 -/

/-- Wholesome success of the two upstream calls for one car route:
transport success, OK payload status, a non-zero duration value and a
parseable distance text. -/
def carCallsOk (dmO : String × String → Except String DMData)
    (dirO : String × String → Except String DirData)
    (isRev : Bool) (r : CarRoute) : Prop :=
  ∃ dm, dmO (carQuery isRev r) = .ok dm ∧ dm.status = "OK"
    ∧ dm.element.durationValue ≠ 0
    ∧ (pyFloatOfString (stripNonNumeric dm.element.distanceText)).isSome = true
    ∧ ∃ dir, dirO (carQuery isRev r) = .ok dir ∧ dir.status = "OK"

lemma processCarRoute_ok (dmO : String × String → Except String DMData)
    (dirO : String × String → Except String DirData)
    (isRev : Bool) (r : CarRoute) (h : carCallsOk dmO dirO isRev r) :
    ∃ resp, processCarRoute dmO dirO isRev r = .ok resp
      ∧ resp.id = r.id ∧ resp.status = "NORMAL" := by
  obtain ⟨dm, hdm, hst, hdv, hparse, dir, hdir, hst2⟩ := h
  obtain ⟨fc, hfc⟩ := Option.isSome_iff_exists.mp hparse
  have hred : processCarRoute dmO dirO isRev r = .ok
      { id := r.id
        from_location := effOriginName isRev r
        «to» := effDestinationName isRev r
        distance := dm.element.distanceText
        duration := dm.element.durationText
        durationInTraffic :=
          (dm.element.durationInTraffic.bind (·.text)).getD dm.element.durationText
        traffic := classifyTraffic
          (((dm.element.durationInTraffic.bind (·.value)).getD
            dm.element.durationValue : Int) / (dm.element.durationValue : Rat))
        route := carRouteDescription (dir.steps.map (·.html_instructions))
        fuelCost := "€" ++ fmt2 (fc / 100 * 12)
        status := "NORMAL" } := by
    simp [processCarRoute, hdm, hst, hdir, hst2, computeRatio, hdv, fuelCostStr, hfc]
  exact ⟨_, hred, rfl, rfl⟩

lemma railRoutes_all_ok (tO : String × String → Except String UTripsData)
    (dO : String → Except Unit (List UDisruption)) (maxJ : Int) (isRev : Bool) :
    ∀ routes : List Route,
      (∀ r ∈ routes, ∃ d, tO (tripQuery isRev r) = .ok d) →
      (railRoutes tO dO maxJ isRev routes).toOption.map (List.map (·.routeKey)) =
        some (routes.map (routeKeyOf isRev)) := by
  intro routes
  induction routes with
  | nil => intro _; rfl
  | cons r rs ih =>
    intro h
    obtain ⟨d, hd⟩ := h r (List.mem_cons_self r rs)
    have ih' := ih (fun r' hr' => h r' (List.mem_cons_of_mem r hr'))
    cases hr : railRoutes tO dO maxJ isRev rs with
    | error e => rw [hr] at ih'; simp [Except.toOption] at ih'
    | ok out =>
      rw [hr] at ih'
      simp only [Except.toOption, Option.map_some', Option.some.injEq] at ih'
      simp [railRoutes, processRoute, hd, hr, Except.toOption, ih']

lemma carRoutes_all_ok (dmO : String × String → Except String DMData)
    (dirO : String × String → Except String DirData) (isRev : Bool) :
    ∀ routes : List CarRoute,
      (∀ r ∈ routes, carCallsOk dmO dirO isRev r) →
      (carRoutes dmO dirO isRev routes).toOption.map (List.map (·.id)) =
        some (routes.map (·.id)) := by
  intro routes
  induction routes with
  | nil => intro _; rfl
  | cons r rs ih =>
    intro h
    obtain ⟨resp, hresp, hid, _⟩ :=
      processCarRoute_ok dmO dirO isRev r (h r (List.mem_cons_self r rs))
    have ih' := ih (fun r' hr' => h r' (List.mem_cons_of_mem r hr'))
    cases hr : carRoutes dmO dirO isRev rs with
    | error e => rw [hr] at ih'; simp [Except.toOption] at ih'
    | ok out =>
      rw [hr] at ih'
      simp only [Except.toOption, Option.map_some', Option.some.injEq] at ih'
      simp [carRoutes, hresp, hr, Except.toOption, ih', hid]

/-- C1: when every (non-skippable) upstream call succeeds with a
well-formed payload, `get_train_routes` returns exactly one
RouteResponse per input route carrying the routes' keys in input order,
and `get_car_routes` returns exactly one CarTripResponse per input
route carrying the routes' ids in input order. -/
theorem c1_one_response_per_route
    (tO : String × String → Except String UTripsData)
    (dO : String → Except Unit (List UDisruption)) (req : RouteRequest)
    (dmO : String × String → Except String DMData)
    (dirO : String × String → Except String DirData) (creq : CarRouteRequest)
    (hrail : ∀ r ∈ req.routes, ∃ d, tO (tripQuery req.is_reversed r) = .ok d)
    (hcar : ∀ r ∈ creq.routes, carCallsOk dmO dirO creq.is_reversed r) :
    (getTrainRoutes tO dO req).toOption.map (List.map (·.routeKey)) =
      some (req.routes.map (routeKeyOf req.is_reversed))
    ∧ (getCarRoutes dmO dirO creq).toOption.map (List.map (·.id)) =
      some (creq.routes.map (·.id)) :=
  ⟨railRoutes_all_ok tO dO req.max_journeys req.is_reversed req.routes hrail,
   carRoutes_all_ok dmO dirO creq.is_reversed creq.routes hcar⟩

/-- Distance-matrix oracle returning status OK with normal data. -/
def dmOw : String × String → Except String DMData :=
  fun _ => .ok ⟨"OK", ⟨"42.5 km", "30 mins", 1800, none⟩⟩

/-- Concrete one-route rail request. -/
def reqW : RouteRequest := ⟨[routeW], 5, false⟩

/-- Concrete one-route car request. -/
def creqW : CarRouteRequest := ⟨[carW], false⟩

/-- C1 witness: the concrete one-route requests produce exactly one
response each, carrying the route's key and id. -/
theorem c1_witness :
    (getTrainRoutes tOw dOw reqW).toOption.map (List.map (·.routeKey)) =
      some ["A-B"]
    ∧ (getCarRoutes dmOw dirOw creqW).toOption.map (List.map (·.id)) =
      some [7] := by
  have h := c1_one_response_per_route tOw dOw reqW dmOw dirOw creqW
    (by intro r _; exact ⟨⟨none⟩, rfl⟩)
    (by
      intro r hr
      rcases List.mem_singleton.mp hr with rfl
      exact ⟨⟨"OK", ⟨"42.5 km", "30 mins", 1800, none⟩⟩, rfl, rfl, by decide,
        by decide, ⟨"OK", []⟩, rfl, rfl⟩)
  exact ⟨h.1.trans (by decide), h.2.trans (by decide)⟩

/-! ### C9 -/

lemma roadNamesLoop_eq_take (steps : List String) :
    ∀ acc : List String, acc.length < 3 →
      roadNamesLoop acc steps = (acc ++ steps.filterMap pyFirstMatch).take 3 := by
  induction steps with
  | nil =>
    intro acc hacc
    simp only [roadNamesLoop, List.filterMap_nil, List.append_nil]
    exact (List.take_of_length_le (by omega)).symm
  | cons s rest ih =>
    intro acc hacc
    simp only [roadNamesLoop, List.filterMap_cons]
    cases hm : pyFirstMatch s with
    | none => exact ih acc hacc
    | some m =>
      show (if acc.length + 1 ≥ 3 then acc ++ [m]
          else roadNamesLoop (acc ++ [m]) rest) =
        List.take 3 (acc ++ m :: rest.filterMap pyFirstMatch)
      by_cases h3 : acc.length + 1 ≥ 3
      · rw [if_pos h3]
        have hsplit : acc ++ m :: rest.filterMap pyFirstMatch =
            (acc ++ [m]) ++ rest.filterMap pyFirstMatch := by simp
        have hlen : (acc ++ [m]).length = 3 := by
          simp only [List.length_append, List.length_singleton]; omega
        rw [hsplit, ← hlen, List.take_left]
      · rw [if_neg h3]
        have hsplit : acc ++ m :: rest.filterMap pyFirstMatch =
            (acc ++ [m]) ++ rest.filterMap pyFirstMatch := by simp
        rw [hsplit]
        exact ih (acc ++ [m])
          (by simp only [List.length_append, List.length_singleton]; omega)

/-- C9 counterexample: on the instruction "BA10" the code's
word-boundary-anchored search finds nothing (yielding "Local roads"),
while the claim's boundary-free extraction rule yields "A10"; the two
descriptions differ. -/
theorem c9_counterexample :
    carRouteDescription ["BA10"] = "Local roads"
    ∧ specNaiveDescription ["BA10"] = "A10"
    ∧ carRouteDescription ["BA10"] ≠ specNaiveDescription ["BA10"] := by
  decide

/-- C9 (amended): the route description collects, per step in order, the
first substring matching one uppercase letter followed by one or more
digits delimited by word boundaries, keeps at most 3 matches in step
order joined with " → ", and is "Local roads" when no step matches;
instructions "Take exit onto A10" then "Continue on N1" yield
"A10 → N1", and instructions with no match yield "Local roads". -/
theorem c9_road_description (steps : List String) :
    carRouteDescription steps = specBoundaryDescription steps
    ∧ carRouteDescription ["Take exit onto A10", "Continue on N1"] = "A10 → N1"
    ∧ carRouteDescription ["turn left at the square"] = "Local roads" := by
  refine ⟨?_, by decide, by decide⟩
  unfold carRouteDescription specBoundaryDescription
  rw [roadNamesLoop_eq_take steps [] (by decide), List.nil_append]
  cases hl : steps.filterMap pyFirstMatch with
  | nil => simp
  | cons x xs => simp

end EcosystemApi
